import Mathlib

/-!
Verification development for the Material-management repository.

The repository is a three-step tabular ETL pipeline for pharmacy inventory:
  * `script1_global_stock.py`   — Global Stock Aggregator,
  * `script2_main_store_stock.py` — Main Store Aggregator,
  * `script4_inventory_calc.py` — Inventory Calculator (merge + metrics + validation).

The embedding below models tables as lists of records, numeric spreadsheet
cells as rationals (`ℚ`), possibly-missing cells as `Option`, and raw
quantity cells (blank / non-numeric text / numeric) as an inductive type.
Fallible pipeline runs return `Except PipelineError`.
-/

namespace MaterialMgmt

/-- A raw quantity cell as read from a spreadsheet: blank (NaN), non-numeric
text (which `pd.to_numeric(errors="coerce")` turns into NaN), or a number. -/
inductive RawVal where
  | blank : RawVal
  | text (s : String) : RawVal
  | num (q : ℚ) : RawVal
deriving DecidableEq

/-- Whether the cell is blank, i.e. `isna()` holds before numeric coercion. -/
def RawVal.isBlank : RawVal → Bool
  | .blank => true
  | _ => false

/-- Numeric coercion, `pd.to_numeric(errors="coerce")`: numbers survive,
blank and unparsable text become NaN (`none`). -/
def RawVal.toNum : RawVal → Option ℚ
  | .num q => some q
  | _ => none

/-- Model of `Description.astype(str).str.strip() != ""` together with `notna()`:
the cell is present and holds at least one non-whitespace character. -/
def descPresent : Option String → Bool
  | some s => s.data.any (fun c => !c.isWhitespace)
  | none => false

/-- One row of the Global Stock Aggregator input
(`Material_Global_Stock_Report.CSV`): columns `ItemCode`, `Description`, `Qty`. -/
structure RawStockRecord where
  itemCode : String
  description : Option String
  qty : RawVal
deriving DecidableEq

/-- One row of the Main Store Aggregator input: columns `Item\nCode`
(possibly missing), `Store Name`, `Qty.`. -/
structure RawBatchRecord where
  itemCode : Option String
  storeName : String
  qty : RawVal
deriving DecidableEq

/-- The designated store name from `script2_main_store_stock.py` /
`script4_inventory_calc.py`. -/
def MAIN_STORE : String := "Main Medical Store (MMS)-SEPL"

/-- Classified pipeline failures ( §7 of the spec ): missing columns,
empty dataset, every row filtered out, one of the post-condition
assertions at the end of an aggregation, or a conservation breach. -/
inductive PipelineError where
  | missingColumns : PipelineError
  | emptyInput : PipelineError
  | allRowsFiltered : PipelineError
  | assertIntransit : PipelineError
  | assertDuplicateCodes : PipelineError
  | assertNegativeQty : PipelineError
  | conservation : PipelineError
deriving DecidableEq

/-- Model of `df.groupby(key)[val].sum()`: one output pair per distinct key, in order
of first occurrence, the value being the sum of all values sharing the key. -/
def groupBySum : List (String × ℚ) → List (String × ℚ)
  | [] => []
  | x :: rest =>
    (x.1, x.2 + ((rest.filter (fun p => decide (p.1 = x.1))).map Prod.snd).sum) ::
      groupBySum (rest.filter (fun p => !decide (p.1 = x.1)))
termination_by l => l.length
decreasing_by
  simp only [List.length_cons]
  exact Nat.lt_succ_of_le (List.length_filter_le _ _)

/-- The key order used by `sort_values` on the item-code column. -/
def keyLE : (String × ℚ) → (String × ℚ) → Prop := fun a b => a.1 ≤ b.1

instance : DecidableRel keyLE := fun a b => inferInstanceAs (Decidable (a.1 ≤ b.1))

instance : IsTotal (String × ℚ) keyLE := ⟨fun a b => le_total a.1 b.1⟩

instance : IsTrans (String × ℚ) keyLE := ⟨fun _ _ _ h h2 => le_trans h h2⟩

/-- Model of `result.sort_values(key)`: sort the table by item code ascending. -/
def sortByKey (l : List (String × ℚ)) : List (String × ℚ) :=
  List.insertionSort keyLE l

/-- The three cleaning filters of `create_global_stock_lookup`
(script1, lines 42-58): drop blank description, drop blank quantity,
drop quantity that fails numeric coercion. -/
def clean_global (l : List RawStockRecord) : List RawStockRecord :=
  ((l.filter (fun r => descPresent r.description)).filter
      (fun r => !r.qty.isBlank)).filter
    (fun r => r.qty.toNum.isSome)

/-- Numeric value of the quantity cell of a (cleaned) raw stock row. -/
def qtyNum (r : RawStockRecord) : ℚ := r.qty.toNum.getD 0

/-- Model of `create_global_stock_lookup` (script1): empty-input check, cleaning,
group-by-item-code summing `Qty`, sort ascending, then the post-condition
assertions (no "Intransit Store" code, unique codes, no negative quantity;
the fourth `notna` assertion is trivial in this model, where every
aggregated quantity is a total rational, so it is not represented). -/
def create_global_stock_lookup (l : List RawStockRecord) :
    Except PipelineError (List (String × ℚ)) :=
  if l.isEmpty then .error .emptyInput
  else
    let cleaned := clean_global l
    if cleaned.isEmpty then .error .allRowsFiltered
    else
      let result := sortByKey (groupBySum (cleaned.map (fun r => (r.itemCode, qtyNum r))))
      if result.any (fun p => decide (p.1 = "Intransit Store")) then .error .assertIntransit
      else if ¬ (result.map Prod.fst).Nodup then .error .assertDuplicateCodes
      else if result.any (fun p => decide (p.2 < 0)) then .error .assertNegativeQty
      else .ok result

/-- The cleaning filters of `create_main_store_stock_lookup`
(script2, lines 56-73): keep only the rows of the designated store, drop rows
with missing item code or blank quantity, drop quantity that fails
numeric coercion. -/
def clean_main (l : List RawBatchRecord) : List RawBatchRecord :=
  ((l.filter (fun r => decide (r.storeName = MAIN_STORE))).filter
      (fun r => r.itemCode.isSome && !r.qty.isBlank)).filter
    (fun r => r.qty.toNum.isSome)

/-- Numeric value of the quantity cell of a (cleaned) batch row. -/
def batchQty (r : RawBatchRecord) : ℚ := r.qty.toNum.getD 0

/-- Item code of a (cleaned) batch row. -/
def batchCode (r : RawBatchRecord) : String := r.itemCode.getD ""

/-- Model of `create_main_store_stock_lookup` (script2): empty-input check, cleaning,
`input_total` taken over the cleaned rows, group-by-item-code summing
`Qty.`, sort ascending, then the assertions: unique codes, no negative
quantity, and conservation `abs(input_total - output_total) < 0.01`
(the `notna` assertion is again trivial in this model). -/
def create_main_store_stock_lookup (l : List RawBatchRecord) :
    Except PipelineError (List (String × ℚ)) :=
  if l.isEmpty then .error .emptyInput
  else
    let cleaned := clean_main l
    let inputTotal := (cleaned.map batchQty).sum
    let result := sortByKey (groupBySum (cleaned.map (fun r => (batchCode r, batchQty r))))
    if ¬ (result.map Prod.fst).Nodup then .error .assertDuplicateCodes
    else if result.any (fun p => decide (p.2 < 0)) then .error .assertNegativeQty
    else if ¬ (|inputTotal - (result.map Prod.snd).sum| < 1/100) then .error .conservation
    else .ok result

/-- One row of the master item catalog (Inventory Calculator input), with the
fields the reorder computation reads: `Item\nCode`, `Current SKU (TRUE/FALSE)`,
`ADC`, `Min Stock Level`, `Max Stock Level`, `Pack size`. -/
structure MasterItem where
  itemCode : String
  currentSKU : Bool
  adc : ℚ
  minStockLevel : ℚ
  maxStockLevel : ℚ
  packSize : ℚ
deriving DecidableEq

/-- A working row after `merge_global_stock` added the `Global stock` column. -/
structure RowG extends MasterItem where
  globalStock : ℚ
deriving DecidableEq

/-- A working row after `merge_main_store_stock` added `Main Store Stock`. -/
structure RowM extends RowG where
  mainStoreStock : ℚ
deriving DecidableEq

/-- A working row after `process_pending_po` added `Pending PO`. -/
structure RowP extends RowM where
  pendingPO : ℚ
deriving DecidableEq

/-- A fully computed inventory row after `calculate_metrics`: the merged
columns plus `Net Stock`, `Global Stock Days`, `Main Store Stock Days`,
`Reorder Needed?`, `Order Qty`. -/
structure InvRow extends RowP where
  netStock : ℚ
  globalStockDays : ℚ
  mainStoreStockDays : ℚ
  reorderNeeded : Bool
  orderQty : ℚ
deriving DecidableEq

/-- One line of the pending-purchase-order feed: `Item Code`, `Store Name`,
`POCreated Date` (after `pd.to_datetime(errors="coerce")`: `none` models NaT
from an unparsable date), `Pen.Qty`. Dates are modelled as integer days. -/
structure PORecord where
  itemCode : String
  storeName : String
  poCreatedDate : Option ℤ
  penQty : ℚ
deriving DecidableEq

/-- Model of `InventoryCalculator.load_master` (script4, lines 26-35): keep only rows
whose `Current SKU (TRUE/FALSE)` column equals `True`. -/
def load_master (master : List MasterItem) : List MasterItem :=
  master.filter (fun m => m.currentSKU)

/-- Left-join lookup into a two-column table, missing matches defaulting
to 0 (`merge(..., how="left")` followed by `fillna(0)`; the lookup tables
produced by the aggregators have unique item codes). -/
def lookupQty (table : List (String × ℚ)) (k : String) : ℚ :=
  match table.find? (fun p => decide (p.1 = k)) with
  | some p => p.2
  | none => 0

/-- Model of `InventoryCalculator.merge_global_stock` (script4, lines 38-53):
left-join of the global lookup by item code, `Global stock` defaulted to 0. -/
def merge_global_stock (rows : List MasterItem) (gs : List (String × ℚ)) : List RowG :=
  rows.map (fun m => ⟨m, lookupQty gs m.itemCode⟩)

/-- Model of `InventoryCalculator.merge_main_store_stock` (script4, lines 56-66):
left-join of the main-store lookup by item code, defaulted to 0. -/
def merge_main_store_stock (rows : List RowG) (ms : List (String × ℚ)) : List RowM :=
  rows.map (fun r => ⟨r, lookupQty ms r.itemCode⟩)

/-- The pending-PO rows that survive the store and 90-day filters of
`process_pending_po` (script4, lines 84-90): store name equals the
designated store, and the parsed `POCreated Date` is ≥ run time − 90 days
(a NaT date compares false, so unparsable dates are excluded). -/
def po_recent (pos : List PORecord) (now : ℤ) : List PORecord :=
  (pos.filter (fun p => decide (p.storeName = MAIN_STORE))).filter
    (fun p =>
      match p.poCreatedDate with
      | some d => decide (now - 90 ≤ d)
      | none => false)

/-- Model of `InventoryCalculator.process_pending_po` (script4, lines 69-104):
filter to the designated store and the trailing 90 days, group by item code
summing `Pen.Qty`, left-join with `Pending PO` defaulted to 0. -/
def process_pending_po (rows : List RowM) (pos : List PORecord) (now : ℤ) : List RowP :=
  let pending := groupBySum ((po_recent pos now).map (fun p => (p.itemCode, p.penQty)))
  rows.map (fun r => ⟨r, lookupQty pending r.itemCode⟩)

/-- The Python builtin `round` with zero digits (bankers rounding, used in
`calculate_metrics`): round to the nearest integer, ties going to the even
integer. -/
def pyRound (q : ℚ) : ℤ :=
  if q - ⌊q⌋ < 1/2 then ⌊q⌋
  else if 1/2 < q - ⌊q⌋ then ⌊q⌋ + 1
  else if 2 ∣ ⌊q⌋ then ⌊q⌋ else ⌊q⌋ + 1

/-- Model of `calc_order_qty` (script4, lines 133-140): 0 when the SKU is inactive or
no reorder is needed; otherwise `shortage = Max Stock Level − Net Stock`;
0 when `pack_size ≤ 0` or `shortage ≤ 0`; otherwise
`max(0, ceil(shortage / pack) * pack)`. -/
def calc_order_qty (active reorder : Bool) (maxStock net pack : ℚ) : ℚ :=
  if !active || !reorder then 0
  else
    let shortage := maxStock - net
    if pack ≤ 0 ∨ shortage ≤ 0 then 0
    else max 0 ((⌈shortage / pack⌉ : ℚ) * pack)

/-- Model of `InventoryCalculator.calculate_metrics` (script4, lines 107-143):
derive `Net Stock`, the two stock-days columns (guarded by `ADC > 0`),
`Reorder Needed?`, and `Order Qty` for every row. -/
def calculate_metrics (rows : List RowP) : List InvRow :=
  rows.map (fun r =>
    let net := r.globalStock + r.pendingPO
    let gsd : ℚ := if 0 < r.adc then (pyRound (r.globalStock / r.adc) : ℚ) else 0
    let msd : ℚ := if 0 < r.adc then (pyRound (r.mainStoreStock / r.adc) : ℚ) else 0
    let rn : Bool := r.currentSKU && decide (net < r.minStockLevel)
    ⟨r, net, gsd, msd, rn, calc_order_qty r.currentSKU rn r.maxStockLevel net r.packSize⟩)

/-- Model of `InventoryCalculator.validate` (script4, lines 146-158): recompute
`Net Stock` independently and compare with the stored column, and check
that every `Order Qty` is ≥ 0 (the column-count check is only a logged
warning, not a failure, so it is not part of the pass/fail result). -/
def validate (rows : List InvRow) : Bool :=
  rows.all (fun r => decide (r.netStock = r.globalStock + r.pendingPO)) &&
    rows.all (fun r => decide (0 ≤ r.orderQty))

/-- Model of `InventoryCalculator.run` up to `calculate_metrics` (script4,
lines 244-260): load the master catalog, the three merges, then metrics
(`validate` is checked separately, and `export` only sorts and styles). -/
def inventory_run (master : List MasterItem) (gs ms : List (String × ℚ))
    (pos : List PORecord) (now : ℤ) : List InvRow :=
  calculate_metrics
    (process_pending_po
      (merge_main_store_stock (merge_global_stock (load_master master) gs) ms)
      pos now)

/-! ### Lemmas about `groupBySum`, `lookupQty` and `sortByKey` -/

theorem sum_map_filter_split (p : (String × ℚ) → Bool) (l : List (String × ℚ)) :
    ((l.filter p).map Prod.snd).sum + ((l.filter (fun x => !p x)).map Prod.snd).sum
      = (l.map Prod.snd).sum := by
  induction l with
  | nil => simp
  | cons a l ih =>
    cases h : p a <;> simp [List.filter_cons, h] <;> linarith [ih]

theorem groupBySum_sum (l : List (String × ℚ)) :
    ((groupBySum l).map Prod.snd).sum = (l.map Prod.snd).sum := by
  induction l using groupBySum.induct with
  | case1 => simp [groupBySum]
  | case2 x rest ih =>
    rw [groupBySum]
    simp only [List.map_cons, List.sum_cons]
    rw [ih]
    have h := sum_map_filter_split (fun p => decide (p.1 = x.1)) rest
    linarith

theorem groupBySum_mem_keys (l : List (String × ℚ)) (k : String) :
    k ∈ (groupBySum l).map Prod.fst ↔ k ∈ l.map Prod.fst := by
  induction l using groupBySum.induct with
  | case1 => simp [groupBySum]
  | case2 x rest ih =>
    rw [groupBySum]
    simp only [List.map_cons, List.mem_cons, ih, List.mem_map, List.mem_filter,
      Bool.not_eq_eq_eq_not, Bool.not_true, decide_eq_false_iff_not]
    constructor
    · rintro (h | ⟨p, ⟨hp, _⟩, rfl⟩)
      · exact Or.inl h
      · exact Or.inr ⟨p, hp, rfl⟩
    · rintro (h | ⟨p, hp, rfl⟩)
      · exact Or.inl h
      · by_cases hk : p.1 = x.1
        · exact Or.inl hk
        · exact Or.inr ⟨p, ⟨hp, hk⟩, rfl⟩

theorem groupBySum_keys_nodup (l : List (String × ℚ)) :
    ((groupBySum l).map Prod.fst).Nodup := by
  induction l using groupBySum.induct with
  | case1 => simp [groupBySum]
  | case2 x rest ih =>
    rw [groupBySum]
    simp only [List.map_cons, List.nodup_cons]
    refine ⟨fun hmem => ?_, ih⟩
    rw [groupBySum_mem_keys] at hmem
    simp only [List.mem_map, List.mem_filter, Bool.not_eq_eq_eq_not, Bool.not_true,
      decide_eq_false_iff_not] at hmem
    obtain ⟨p, ⟨_, hne⟩, hp⟩ := hmem
    exact hne hp

theorem lookupQty_nil (k : String) : lookupQty [] k = 0 := rfl

theorem lookupQty_cons (a : String × ℚ) (t : List (String × ℚ)) (k : String) :
    lookupQty (a :: t) k = if a.1 = k then a.2 else lookupQty t k := by
  by_cases h : a.1 = k <;> simp [lookupQty, List.find?_cons, h]

theorem lookupQty_groupBySum (l : List (String × ℚ)) (k : String) :
    lookupQty (groupBySum l) k
      = ((l.filter (fun p => decide (p.1 = k))).map Prod.snd).sum := by
  induction l using groupBySum.induct with
  | case1 => simp [groupBySum, lookupQty_nil]
  | case2 x rest ih =>
    rw [groupBySum, lookupQty_cons]
    by_cases hk : x.1 = k
    · subst hk
      rw [if_pos rfl, List.filter_cons, if_pos (by simp)]
      simp
    · rw [if_neg hk, ih, List.filter_cons, if_neg (by simp [hk]), List.filter_filter]
      have hfc : List.filter (fun a => decide (a.1 = k) && !decide (a.1 = x.1)) rest
          = List.filter (fun p => decide (p.1 = k)) rest := by
        apply List.filter_congr
        intro p _
        by_cases hp : p.1 = k
        · have hpx : ¬ p.1 = x.1 := fun h => hk (h ▸ hp)
          have hkx : ¬ k = x.1 := fun h => hk h.symm
          simp [hp, hpx, hkx]
        · simp [hp]
      rw [hfc]

theorem lookupQty_eq_of_mem {l : List (String × ℚ)} {k : String} {v : ℚ}
    (hnd : (l.map Prod.fst).Nodup) (hm : (k, v) ∈ l) : lookupQty l k = v := by
  induction l with
  | nil => cases hm
  | cons a t ih =>
    simp only [List.map_cons, List.nodup_cons] at hnd
    rcases List.mem_cons.mp hm with h | h
    · subst h
      simp [lookupQty_cons]
    · have hak : a.1 ≠ k := by
        intro he
        exact hnd.1 (he ▸ List.mem_map.mpr ⟨(k, v), h, rfl⟩)
      rw [lookupQty_cons, if_neg hak]
      exact ih hnd.2 h

theorem sortByKey_perm (l : List (String × ℚ)) : (sortByKey l).Perm l :=
  List.perm_insertionSort keyLE l

theorem sortByKey_sorted (l : List (String × ℚ)) : List.Sorted keyLE (sortByKey l) :=
  List.sorted_insertionSort keyLE l

theorem sortByKey_mem {l : List (String × ℚ)} {p : String × ℚ} :
    p ∈ sortByKey l ↔ p ∈ l :=
  (sortByKey_perm l).mem_iff

theorem sortByKey_keys_nodup {l : List (String × ℚ)}
    (h : (l.map Prod.fst).Nodup) : ((sortByKey l).map Prod.fst).Nodup :=
  (((sortByKey_perm l).map Prod.fst).nodup_iff).mpr h

theorem sortByKey_sum (l : List (String × ℚ)) :
    ((sortByKey l).map Prod.snd).sum = (l.map Prod.snd).sum :=
  ((sortByKey_perm l).map Prod.snd).sum_eq

theorem global_ok_elim {l : List RawStockRecord} {out : List (String × ℚ)}
    (h : create_global_stock_lookup l = .ok out) :
    out = sortByKey (groupBySum ((clean_global l).map (fun r => (r.itemCode, qtyNum r))))
      ∧ (∀ p ∈ out, p.1 ≠ "Intransit Store")
      ∧ (out.map Prod.fst).Nodup
      ∧ (∀ p ∈ out, ¬ p.2 < 0) := by
  simp only [create_global_stock_lookup] at h
  split_ifs at h with h1 h2 h3 h4 h5
  all_goals cases h
  refine ⟨rfl, ?_, h4, ?_⟩
  · intro p hp hcontra
    exact h3 (List.any_eq_true.mpr ⟨p, hp, by simp [hcontra]⟩)
  · intro p hp hcontra
    exact h5 (List.any_eq_true.mpr ⟨p, hp, by simp [hcontra]⟩)

theorem main_ok_elim {l : List RawBatchRecord} {out : List (String × ℚ)}
    (h : create_main_store_stock_lookup l = .ok out) :
    out = sortByKey (groupBySum ((clean_main l).map (fun r => (batchCode r, batchQty r))))
      ∧ (out.map Prod.fst).Nodup
      ∧ (∀ p ∈ out, ¬ p.2 < 0)
      ∧ |((clean_main l).map batchQty).sum - (out.map Prod.snd).sum| < 1/100 := by
  simp only [create_main_store_stock_lookup] at h
  split_ifs at h with h1 h2 h3 h4
  all_goals cases h
  refine ⟨rfl, h2, ?_, h4⟩
  intro p hp hcontra
  exact h3 (List.any_eq_true.mpr ⟨p, hp, by simp [hcontra]⟩)

/-! ### Lemmas about the metric computations -/

theorem calc_order_qty_nonneg (active reorder : Bool) (maxS net pack : ℚ) :
    0 ≤ calc_order_qty active reorder maxS net pack := by
  simp only [calc_order_qty]
  split_ifs <;> simp [le_max_left]

theorem calc_order_qty_spec_eq (active reorder : Bool) (maxS net pack : ℚ) :
    calc_order_qty active reorder maxS net pack =
      if ¬(active = true) ∨ reorder = false then 0
      else if pack ≤ 0 ∨ maxS - net ≤ 0 then 0
      else (⌈(maxS - net) / pack⌉ : ℚ) * pack := by
  simp only [calc_order_qty]
  rcases active <;> rcases reorder <;> simp
  split_ifs with hcond
  · rfl
  · push_neg at hcond
    obtain ⟨hpack, hshort⟩ := hcond
    have hceil : (0 : ℤ) < ⌈(maxS - net) / pack⌉ :=
      Int.ceil_pos.mpr (div_pos (sub_pos.mpr hshort) hpack)
    refine max_eq_right (mul_nonneg ?_ hpack.le)
    exact_mod_cast hceil.le

/-- Concrete master row for scenario 4 of the spec: active, min 100, max 500,
pack size 30, global stock 80, no main-store stock, no pending PO
(hence net stock 80). -/
def sampleRowP : RowP := ⟨⟨⟨⟨"A1", true, 0, 100, 500, 30⟩, 80⟩, 0⟩, 0⟩

/-- The fully computed row for `sampleRowP`. -/
def sampleInv : InvRow := ⟨sampleRowP, 80, 0, 0, true, 420⟩

/-- Scenario 5: the same row with pack size 0. -/
def sampleRowP0 : RowP := ⟨⟨⟨⟨"A1", true, 0, 100, 500, 0⟩, 80⟩, 0⟩, 0⟩

/-- Scenario 3: active row with ADC 0 and global stock 50. -/
def sampleADC0 : RowP := ⟨⟨⟨⟨"A2", true, 0, 100, 500, 30⟩, 50⟩, 0⟩, 0⟩

/-- The fully computed row for `sampleADC0`. -/
def sampleADC0Inv : InvRow := ⟨sampleADC0, 50, 0, 0, true, 450⟩

/-! ### Claim theorems for the Inventory Calculator metrics -/

/-- C4: for every InventoryRow after COMPUTE_METRICS, `Reorder Needed?`
equals the active flag AND-ed with `Net Stock < Min Stock Level`. -/
theorem c4_reorder_flag (rows : List RowP) (r : InvRow)
    (h : r ∈ calculate_metrics rows) :
    r.reorderNeeded = (r.currentSKU && decide (r.netStock < r.minStockLevel)) := by
  simp only [calculate_metrics, List.mem_map] at h
  obtain ⟨s, _, rfl⟩ := h
  rfl

/-- Witness for C4 at the concrete scenario row. -/
theorem c4_reorder_flag_witness :
    sampleInv.reorderNeeded
      = (sampleInv.currentSKU && decide (sampleInv.netStock < sampleInv.minStockLevel)) :=
  c4_reorder_flag [sampleRowP] sampleInv
    (by norm_num [calculate_metrics, sampleRowP, sampleInv, calc_order_qty])

/-- C3: for every InventoryRow after COMPUTE_METRICS, `Net Stock` equals
`Global stock + Pending PO` (main-store stock excluded), and the VALIDATE
stage recomputes it independently and succeeds on the whole table. -/
theorem c3_net_stock_identity (rows : List RowP) (r : InvRow)
    (h : r ∈ calculate_metrics rows) :
    r.netStock = r.globalStock + r.pendingPO
      ∧ validate (calculate_metrics rows) = true := by
  constructor
  · simp only [calculate_metrics, List.mem_map] at h
    obtain ⟨s, _, rfl⟩ := h
    rfl
  · unfold validate
    rw [Bool.and_eq_true, List.all_eq_true, List.all_eq_true]
    constructor
    · intro x hx
      simp only [calculate_metrics, List.mem_map] at hx
      obtain ⟨s, _, rfl⟩ := hx
      simp
    · intro x hx
      simp only [calculate_metrics, List.mem_map] at hx
      obtain ⟨s, _, rfl⟩ := hx
      simpa using calc_order_qty_nonneg s.currentSKU _ s.maxStockLevel _ s.packSize

/-- Witness for C3 at the concrete scenario row. -/
theorem c3_net_stock_identity_witness :
    sampleInv.netStock = sampleInv.globalStock + sampleInv.pendingPO :=
  (c3_net_stock_identity [sampleRowP] sampleInv
    (by norm_num [calculate_metrics, sampleRowP, sampleInv, calc_order_qty])).1

/-- C8: for every InventoryRow after COMPUTE_METRICS, the stock-days columns
are `round(stock / ADC)` when `ADC > 0` and `0` otherwise; in particular
ADC = 0 with global stock 50 yields 0, with no division-by-zero failure. -/
theorem c8_stock_days (rows : List RowP) (r : InvRow)
    (h : r ∈ calculate_metrics rows) :
    (r.globalStockDays = if 0 < r.adc then (pyRound (r.globalStock / r.adc) : ℚ) else 0)
      ∧ (r.mainStoreStockDays = if 0 < r.adc then (pyRound (r.mainStoreStock / r.adc) : ℚ) else 0)
      ∧ (calculate_metrics [sampleADC0]).map InvRow.globalStockDays = [0] := by
  refine ⟨?_, ?_, ?_⟩
  · simp only [calculate_metrics, List.mem_map] at h
    obtain ⟨s, _, rfl⟩ := h
    rfl
  · simp only [calculate_metrics, List.mem_map] at h
    obtain ⟨s, _, rfl⟩ := h
    rfl
  · norm_num [calculate_metrics, sampleADC0]

/-- Witness for C8 at the ADC = 0 scenario row. -/
theorem c8_stock_days_witness :
    (calculate_metrics [sampleADC0]).map InvRow.globalStockDays = [0] :=
  (c8_stock_days [sampleADC0] sampleADC0Inv
    (by norm_num [calculate_metrics, sampleADC0, sampleADC0Inv, calc_order_qty])).2.2

/-- C1: for every InventoryRow after COMPUTE_METRICS, `Order Qty` follows the
formula given by the spec (0 when inactive or no reorder; else 0 when `pack_size ≤ 0` or
`shortage ≤ 0`; else `ceil(shortage / pack_size) * pack_size`), and the two
concrete scenarios: net stock 80 with min 100 / max 500 / pack 30 gives 420,
and the same row with pack 0 gives 0. -/
theorem c1_order_qty (rows : List RowP) (r : InvRow)
    (h : r ∈ calculate_metrics rows) :
    (r.orderQty =
      if ¬(r.currentSKU = true) ∨ r.reorderNeeded = false then 0
      else if r.packSize ≤ 0 ∨ r.maxStockLevel - r.netStock ≤ 0 then 0
      else (⌈(r.maxStockLevel - r.netStock) / r.packSize⌉ : ℚ) * r.packSize)
      ∧ (calculate_metrics [sampleRowP]).map InvRow.orderQty = [420]
      ∧ (calculate_metrics [sampleRowP0]).map InvRow.orderQty = [0] := by
  refine ⟨?_, ?_, ?_⟩
  · simp only [calculate_metrics, List.mem_map] at h
    obtain ⟨s, _, rfl⟩ := h
    exact calc_order_qty_spec_eq s.currentSKU _ s.maxStockLevel _ s.packSize
  · norm_num [calculate_metrics, sampleRowP, calc_order_qty]
  · norm_num [calculate_metrics, sampleRowP0, calc_order_qty]

/-- Witness for C1: the scenario-4 evaluation, obtained through the theorem. -/
theorem c1_order_qty_witness :
    (calculate_metrics [sampleRowP]).map InvRow.orderQty = [420] :=
  (c1_order_qty [sampleRowP] sampleInv
    (by norm_num [calculate_metrics, sampleRowP, sampleInv, calc_order_qty])).2.1

/-- C9: every row of the working table after LOAD has its active flag true,
the merges and COMPUTE_METRICS preserve it, and consequently the active-flag
conjunct inside `Reorder Needed?` is always satisfied on rows reaching
COMPUTE_METRICS (the flag reduces to the net-stock comparison alone). -/
theorem c9_active_flag_invariant (master : List MasterItem) (gs ms : List (String × ℚ))
    (pos : List PORecord) (now : ℤ) :
    (∀ m ∈ load_master master, m.currentSKU = true)
      ∧ (∀ r ∈ inventory_run master gs ms pos now,
          r.currentSKU = true ∧ r.reorderNeeded = decide (r.netStock < r.minStockLevel)) := by
  constructor
  · intro m hm
    exact (List.mem_filter.mp hm).2
  · intro r hr
    simp only [inventory_run, calculate_metrics, process_pending_po, merge_main_store_stock,
      merge_global_stock, List.mem_map] at hr
    obtain ⟨s, ⟨t, ⟨u, ⟨m, hm, rfl⟩, rfl⟩, rfl⟩, rfl⟩ := hr
    have hsku : m.currentSKU = true := (List.mem_filter.mp hm).2
    refine ⟨hsku, ?_⟩
    simp [hsku]

/-- Witness for C9 at a concrete two-row master catalog. -/
theorem c9_active_flag_invariant_witness :
    (⟨"A1", true, 0, 100, 500, 30⟩ : MasterItem).currentSKU = true :=
  (c9_active_flag_invariant [⟨"A1", true, 0, 100, 500, 30⟩, ⟨"Z9", false, 0, 0, 0, 0⟩]
      [] [] [] 0).1
    ⟨"A1", true, 0, 100, 500, 30⟩ (by norm_num [load_master])

/-- C7: the MERGE_PENDING_PO stage aggregates exactly the pending-PO rows of
the designated store whose creation date parsed and is ≥ run time − 90 days
(unparsable dates excluded); each working row receives the sum of the
matching pending quantities, missing matches defaulting to 0 (an empty sum);
and a matching-store PO dated 95 days before run time is excluded. -/
theorem c7_pending_po_window (rows : List RowM) (pos : List PORecord) (now : ℤ) :
    (∀ p, p ∈ po_recent pos now ↔
        (p ∈ pos ∧ p.storeName = MAIN_STORE ∧ ∃ d, p.poCreatedDate = some d ∧ now - 90 ≤ d))
      ∧ process_pending_po rows pos now
          = rows.map (fun r =>
              ⟨r, (((po_recent pos now).filter
                      (fun p => decide (p.itemCode = r.itemCode))).map PORecord.penQty).sum⟩)
      ∧ po_recent [⟨"X", MAIN_STORE, some (now - 95), 5⟩] now = [] := by
  refine ⟨?_, ?_, ?_⟩
  · intro p
    simp only [po_recent, List.mem_filter, decide_eq_true_eq]
    constructor
    · rintro ⟨⟨hp, hs⟩, hd⟩
      refine ⟨hp, hs, ?_⟩
      cases hdate : p.poCreatedDate with
      | none => rw [hdate] at hd; cases hd
      | some d => rw [hdate] at hd; exact ⟨d, rfl, by simpa using hd⟩
    · rintro ⟨hp, hs, d, hdate, hle⟩
      exact ⟨⟨hp, hs⟩, by rw [hdate]; simpa using hle⟩
  · unfold process_pending_po
    apply List.map_congr_left
    intro r _
    congr 1
    rw [lookupQty_groupBySum, List.filter_map, List.map_map]
    rfl
  · simp [po_recent]
    omega

/-- Witness for C7: the 95-day-old matching-store PO is excluded, at run
time 0. -/
theorem c7_pending_po_window_witness :
    po_recent [⟨"X", MAIN_STORE, some ((0:ℤ) - 95), 5⟩] 0 = [] :=
  (c7_pending_po_window [] [] 0).2.2

/-! ### Claim theorems for the two aggregators -/

/-- Scenario 1 of the spec: two valid rows for item A1 (10 and 5) and one
blank-description row for A2. -/
def scenario1 : List RawStockRecord :=
  [⟨"A1", some "Widget", .num 10⟩, ⟨"A1", some "Widget", .num 5⟩, ⟨"A2", some "", .num 3⟩]

/-- C5: the Global Stock Aggregator drops rows with blank/missing description
(and rows whose quantity is blank or unparsable), groups the survivors by
item code summing quantity, sorts by item code ascending, and on scenario 1
returns exactly `[("A1", 15)]`. -/
theorem c5_global_aggregation (l : List RawStockRecord) (out : List (String × ℚ))
    (h : create_global_stock_lookup l = .ok out) :
    (∀ r, r ∈ clean_global l ↔
        (r ∈ l ∧ descPresent r.description = true ∧ r.qty.isBlank = false
          ∧ r.qty.toNum.isSome = true))
      ∧ (∀ k v, (k, v) ∈ out →
          v = (((clean_global l).filter (fun r => decide (r.itemCode = k))).map qtyNum).sum)
      ∧ (∀ k, k ∈ out.map Prod.fst ↔ k ∈ (clean_global l).map RawStockRecord.itemCode)
      ∧ (out.map Prod.fst).Sorted (· ≤ ·)
      ∧ create_global_stock_lookup scenario1 = .ok [("A1", 15)] := by
  refine ⟨?_, ?_, ?_, ?_, ?_⟩
  · intro r
    simp only [clean_global, List.mem_filter, Bool.not_eq_true']
    tauto
  · intro k v hkv
    obtain ⟨hout, -, -, -⟩ := global_ok_elim h
    rw [hout] at hkv
    have hkv2 : (k, v) ∈ groupBySum ((clean_global l).map (fun r => (r.itemCode, qtyNum r))) :=
      sortByKey_mem.mp hkv
    have hv := lookupQty_eq_of_mem (groupBySum_keys_nodup _) hkv2
    rw [lookupQty_groupBySum, List.filter_map, List.map_map] at hv
    exact hv.symm
  · intro k
    obtain ⟨hout, -, -, -⟩ := global_ok_elim h
    rw [hout]
    rw [((sortByKey_perm
        (groupBySum ((clean_global l).map (fun r => (r.itemCode, qtyNum r))))).map
          Prod.fst).mem_iff,
      groupBySum_mem_keys, List.map_map]
    exact Iff.rfl
  · obtain ⟨hout, -, -, -⟩ := global_ok_elim h
    rw [hout]
    exact List.pairwise_map.mpr (sortByKey_sorted _)
  · simp +decide [create_global_stock_lookup, clean_global, scenario1, descPresent,
      RawVal.isBlank, RawVal.toNum, qtyNum, groupBySum, sortByKey, List.insertionSort,
      List.orderedInsert, List.filter_cons]
    norm_num

/-- Witness for C5: scenario 1, run through the theorem. -/
theorem c5_global_aggregation_witness :
    create_global_stock_lookup scenario1 = .ok [("A1", 15)] :=
  (c5_global_aggregation scenario1 [("A1", 15)]
    (by
      simp +decide [create_global_stock_lookup, clean_global, scenario1, descPresent,
        RawVal.isBlank, RawVal.toNum, qtyNum, groupBySum, sortByKey, List.insertionSort,
        List.orderedInsert, List.filter_cons]
      norm_num)).2.2.2.2

/-- A single valid row carrying the sentinel in-transit placeholder code. -/
def intransitInput : List RawStockRecord := [⟨"Intransit Store", some "Widget", .num 5⟩]

/-- C6 counterexample: an input whose single row survives every cleaning
filter but carries the sentinel code reaches the post-condition assertions
and fails the first one — the aggregation raises instead of returning, so
the assertions do not hold on every input that reaches them. -/
theorem c6_assertions_can_fail :
    create_global_stock_lookup intransitInput = .error .assertIntransit := by
  simp +decide [create_global_stock_lookup, clean_global, intransitInput, descPresent,
    RawVal.isBlank, RawVal.toNum, qtyNum, groupBySum, sortByKey, List.insertionSort,
    List.orderedInsert, List.filter_cons]

/-- C6 (amended): whenever the Global Stock Aggregator returns an output
table, that table contains no "Intransit Store" code, its item codes are
unique, and every output quantity is ≥ 0; but an input that reaches the
assertions can still fail them, in which case no table is returned. -/
theorem c6_ok_postconditions (l : List RawStockRecord) (out : List (String × ℚ))
    (h : create_global_stock_lookup l = .ok out) :
    (∀ p ∈ out, p.1 ≠ "Intransit Store")
      ∧ (out.map Prod.fst).Nodup
      ∧ (∀ p ∈ out, 0 ≤ p.2) := by
  obtain ⟨-, h1, h2, h3⟩ := global_ok_elim h
  exact ⟨h1, h2, fun p hp => not_lt.mp (h3 p hp)⟩

/-- Witness for the amended C6 theorem at a concrete successful input. -/
theorem c6_ok_postconditions_witness :
    ([("B1", (2:ℚ))].map Prod.fst).Nodup :=
  (c6_ok_postconditions [⟨"B1", some "Box", .num 2⟩] [("B1", 2)]
    (by
      simp +decide [create_global_stock_lookup, clean_global, descPresent,
        RawVal.isBlank, RawVal.toNum, qtyNum, groupBySum, sortByKey, List.insertionSort,
        List.orderedInsert, List.filter_cons])).2.1

/-- C2: whenever the Main Store Aggregator completes cleaning with at least
one row and returns an output table, the output total exactly equals the
cleaned-input total — hence lies within the 0.01 absolute tolerance — and a
table violating the tolerance is never returned (a violation takes the
`ConservationError` branch instead). -/
theorem c2_conservation (l : List RawBatchRecord) (out : List (String × ℚ))
    (h : create_main_store_stock_lookup l = .ok out) (_hne : clean_main l ≠ []) :
    (out.map Prod.snd).sum = ((clean_main l).map batchQty).sum
      ∧ |((clean_main l).map batchQty).sum - (out.map Prod.snd).sum| < 1/100 := by
  obtain ⟨hout, -, -, -⟩ := main_ok_elim h
  have hsum : (out.map Prod.snd).sum = ((clean_main l).map batchQty).sum := by
    rw [hout, sortByKey_sum, groupBySum_sum, List.map_map]
    rfl
  refine ⟨hsum, ?_⟩
  rw [hsum, sub_self, abs_zero]
  norm_num

/-- Scenario-2-style input: one designated-store batch of quantity 7 and one
row from another store. -/
def mainSample : List RawBatchRecord :=
  [⟨some "M1", MAIN_STORE, .num 7⟩, ⟨some "M1", "Other Store", .num 3⟩]

/-- Witness for C2 at the concrete two-row batch input. -/
theorem c2_conservation_witness :
    ([("M1", (7:ℚ))].map Prod.snd).sum = ((clean_main mainSample).map batchQty).sum :=
  (c2_conservation mainSample [("M1", 7)]
    (by
      simp +decide [create_main_store_stock_lookup, clean_main, mainSample, MAIN_STORE,
        RawVal.isBlank, RawVal.toNum, batchQty, batchCode, groupBySum, sortByKey,
        List.insertionSort, List.orderedInsert, List.filter_cons])
    (by
      simp +decide [clean_main, mainSample, MAIN_STORE, RawVal.isBlank,
        RawVal.toNum, List.filter_cons])).1

/-- C10: whenever the Global Stock Aggregator returns an output table, the
sum of the output quantities equals — in exact arithmetic — the sum of the
quantities of exactly the rows that survive the three cleaning filters,
even though this pipeline performs no conservation check. -/
theorem c10_global_exact_conservation (l : List RawStockRecord) (out : List (String × ℚ))
    (h : create_global_stock_lookup l = .ok out) :
    (out.map Prod.snd).sum = ((clean_global l).map qtyNum).sum := by
  obtain ⟨hout, -, -, -⟩ := global_ok_elim h
  rw [hout, sortByKey_sum, groupBySum_sum, List.map_map]
  rfl

/-- Witness for C10 at scenario 1. -/
theorem c10_global_exact_conservation_witness :
    ([("A1", (15:ℚ))].map Prod.snd).sum = ((clean_global scenario1).map qtyNum).sum :=
  c10_global_exact_conservation scenario1 [("A1", 15)]
    (by
      simp +decide [create_global_stock_lookup, clean_global, scenario1, descPresent,
        RawVal.isBlank, RawVal.toNum, qtyNum, groupBySum, sortByKey, List.insertionSort,
        List.orderedInsert, List.filter_cons]
      norm_num)

end MaterialMgmt
